import Mathlib

/-!
Shallow embedding of the rental core of the Bicycle Rental Management System
(files bikeRent.py, bikeReturn.py, bikeSearch.py, database.py, app.py).

Conventions of the embedding:
* SQL rows become Lean structures; a table is a list of rows; the whole
  SQLite database is a DBState record.  TRANSACTION_ID is generated by
  AUTOINCREMENT, modelled by the nextTransactionId counter.
* Dates are modelled at day granularity as integers (the code stores
  strftime day strings and computes (datetime.now() - rental).days).
* A caught storage exception is modelled by an explicit boolean or
  optional-step argument: the Python code wraps each store access in a
  try/except block, so "the query raised" is an input of the model.
* Interactive input() values (confirmation, damage report, new condition)
  are passed as arguments; the input loop of update_bike_status only ever
  yields one of New/Good/Fair/Damaged, which theorems assume where needed.
-/

namespace BicycleRental

/-- Lower-casing of a string, written over the character list so that it
evaluates by kernel reduction; models SQL LOWER and Python str.lower for
the ASCII data this system stores. -/
def toLowerStr (s : String) : String :=
  String.mk (s.data.map Char.toLower)

/-- Whether the first character list starts the second. -/
def leadsList : List Char → List Char → Bool
  | [], _ => true
  | _ :: _, [] => false
  | a :: xs, b :: ys => a == b && leadsList xs ys

/-- Whether the first character list occurs inside the second. -/
def occursIn (needle : List Char) : List Char → Bool
  | [] => leadsList needle []
  | c :: rest => leadsList needle (c :: rest) || occursIn needle rest

/-- Value of a run of decimal digits; none when empty or non-digit. -/
def digitsValue (l : List Char) : Option Nat :=
  match l with
  | [] => none
  | _ =>
    if l.all (fun c => c.isDigit) then
      some (l.foldl (fun acc c => acc * 10 + (c.toNat - 48)) 0)
    else none

/-- Python int(text) on the id strings the CLI reads: an optional sign
followed by digits; anything else raises ValueError, modelled as none. -/
def parseIntText (s : String) : Option Int :=
  match s.data with
  | '-' :: rest => (digitsValue rest).map fun n => -(n : Int)
  | l => (digitsValue l).map fun n => (n : Int)

/-- Row of the bicycles table (database.py create_tables). -/
structure Bicycle where
  id : Int
  brand : String
  btype : String
  frameSize : String
  rentalRate : String
  purchaseDate : String
  condition : String
  status : String
  deriving DecidableEq, Repr

/-- Row of the members table; columns not read by the rental core
(email, phone, member type, registration and expiry dates) are elided. -/
structure Member where
  id : Int
  name : String
  status : String
  rentalLimit : Nat
  deriving DecidableEq, Repr

/-- Row of the rental_transactions table.  RETURN_DATE is nullable:
none models SQL NULL (an open rental). -/
structure RentalTransaction where
  transactionId : Nat
  bicycleId : Int
  memberId : Int
  rentalDate : Int
  returnDate : Option Int
  deriving DecidableEq, Repr

/-- Row of the rental_fees table (primary key TRANSACTION_ID). -/
structure RentalFee where
  transactionId : Nat
  lateFee : Int
  damageFee : Int
  deriving DecidableEq, Repr

/-- The persistent state: the four tables plus the AUTOINCREMENT counter
for rental_transactions. -/
structure DBState where
  bicycles : List Bicycle
  members : List Member
  transactions : List RentalTransaction
  fees : List RentalFee
  nextTransactionId : Nat
  deriving DecidableEq, Repr

/-- DatabaseManager.get_member_info: SELECT ... FROM members WHERE ID = ?
AND STATUS = 'Active'; returns None when no such row (or on error). -/
def getMemberInfo (s : DBState) (memberId : Int) : Option Member :=
  s.members.find? fun m => m.id == memberId && m.status == "Active"

/-- RentalTransactionManager.get_active_rentals_for_member:
SELECT COUNT(*) FROM rental_transactions WHERE MEMBER_ID = ? AND
RETURN_DATE IS NULL.  The except branch returns 0 when the query fails,
modelled by the queryFails flag. -/
def getActiveRentalsForMember (queryFails : Bool) (s : DBState)
    (memberId : Int) : Nat :=
  if queryFails then 0
  else (s.transactions.countP fun t =>
    t.memberId == memberId && t.returnDate.isNone)

/-- BikeRentSystem.validate_member. -/
def validateMember (queryFails : Bool) (s : DBState) (memberId : Int) :
    Bool × String :=
  match getMemberInfo s memberId with
  | none => (false, "Invalid or inactive membership.")
  | some m =>
    let currentRentals := getActiveRentalsForMember queryFails s memberId
    let rentalLimit := m.rentalLimit
    if rentalLimit ≤ currentRentals then
      (false,
        s!"Rental limit exceeded. Limit: {rentalLimit}, Current rentals: {currentRentals}.")
    else
      let name := m.name
      (true, s!"Member {name} validated and eligible to rent.")

/-- BicycleSearch.get_bicycle_by_id: SELECT * FROM bicycles WHERE ID = ?. -/
def getBicycleById (s : DBState) (bicycleId : Int) : Option Bicycle :=
  s.bicycles.find? fun b => b.id == bicycleId

/-- BikeRentSystem.validate_bicycle. -/
def validateBicycle (s : DBState) (bicycleId : Int) : Bool × String :=
  match getBicycleById s bicycleId with
  | none => (false, "Bicycle ID not found.")
  | some b =>
    if toLowerStr b.status != "available" then
      let st := b.status
      (false,
        s!"Bicycle with ID {bicycleId} is not available for rent. Current status: {st}.")
    else
      (true, "Bicycle is available for rent.")

/-- BikeRentSystem.calculate_expected_return_date: now + 7 days. -/
def calculateExpectedReturnDate (now : Int) : Int :=
  let rentalPeriod : Int := 7
  now + rentalPeriod

/-- RentalTransactionManager.log_rental_transaction: INSERT INTO
rental_transactions (BICYCLE_ID, MEMBER_ID, RENTAL_DATE, RETURN_DATE)
VALUES (?, ?, ?, ?) with the caller's expected_return_date bound to the
RETURN_DATE column.  The except branch swallows a failed insert (it only
logs), modelled by insertFails returning the state unchanged. -/
def logRentalTransaction (insertFails : Bool) (s : DBState)
    (bicycleId memberId : Int) (rentalDate expectedReturnDate : Int) :
    DBState :=
  if insertFails then s
  else
    { s with
      transactions := s.transactions ++
        [{ transactionId := s.nextTransactionId
           bicycleId := bicycleId
           memberId := memberId
           rentalDate := rentalDate
           returnDate := some expectedReturnDate }]
      nextTransactionId := s.nextTransactionId + 1 }

/-- BikeRentSystem.rent_bicycle and the /api/rent handler of app.py, after
the two ids have been parsed: validate member, validate bicycle, then
log_rental_transaction.  Note that even when the insert fails the caller
still reports the rental as confirmed, because log_rental_transaction
swallows the exception. -/
def rentBicycle (countFails insertFails : Bool) (s : DBState) (now : Int)
    (memberId bicycleId : Int) : (Bool × String) × DBState :=
  match validateMember countFails s memberId with
  | (false, msg) => ((false, msg), s)
  | (true, _) =>
    match validateBicycle s bicycleId with
    | (false, msg) => ((false, msg), s)
    | (true, _) =>
      let rentalDate := now
      let expectedReturnDate := calculateExpectedReturnDate now
      let s1 := logRentalTransaction insertFails s bicycleId memberId
        rentalDate expectedReturnDate
      ((true,
        s!"Rental confirmed for Bicycle ID {bicycleId} by Member ID {memberId}. Expected return date: {expectedReturnDate}."),
        s1)

/-- CLI entry of rent_bicycle: member_id = int(input(..)), bicycle_id =
int(input(..)); a ValueError yields the invalid-input rejection. -/
def rentBicycleFromStrings (countFails insertFails : Bool) (s : DBState)
    (now : Int) (memberIdText bicycleIdText : String) :
    (Bool × String) × DBState :=
  match parseIntText memberIdText, parseIntText bicycleIdText with
  | some memberId, some bicycleId =>
    rentBicycle countFails insertFails s now memberId bicycleId
  | _, _ =>
    ((false,
      "Invalid input. Please enter numeric values for Member ID and Bicycle ID."),
      s)

/-- Number of open transactions (RETURN_DATE IS NULL) naming a bicycle. -/
def openCount (s : DBState) (bicycleId : Int) : Nat :=
  s.transactions.countP fun t =>
    t.bicycleId == bicycleId && t.returnDate.isNone

/-- Number of open transactions for one (bicycle, member) pair. -/
def openCountFor (s : DBState) (bicycleId memberId : Int) : Nat :=
  s.transactions.countP fun t =>
    t.bicycleId == bicycleId && t.memberId == memberId && t.returnDate.isNone

/-- BikeReturn.get_active_rental: SELECT * FROM rental_transactions WHERE
BICYCLE_ID = ? AND MEMBER_ID = ? AND RETURN_DATE IS NULL, fetchone. -/
def getActiveRental (s : DBState) (bicycleId memberId : Int) :
    Option RentalTransaction :=
  s.transactions.find? fun t =>
    t.bicycleId == bicycleId && t.memberId == memberId && t.returnDate.isNone

/-- Effect of the SET RETURN_DATE = ? WHERE TRANSACTION_ID = ? clause on
one row. -/
def closeRow (transactionId : Nat) (returnDate : Int)
    (t : RentalTransaction) : RentalTransaction :=
  if t.transactionId == transactionId then { t with returnDate := some returnDate }
  else t

/-- BikeReturn.update_rental_transaction: UPDATE rental_transactions SET
RETURN_DATE = ? WHERE TRANSACTION_ID = ?. -/
def updateRentalTransaction (s : DBState) (transactionId : Nat)
    (returnDate : Int) : DBState :=
  { s with
    transactions := s.transactions.map (closeRow transactionId returnDate) }

/-- BikeReturn.calculate_allowed_days: a 7-day policy constant for every
member. -/
def calculateAllowedDays (memberId : Int) : Int :=
  let allowedDays : Int := 7
  allowedDays

/-- Value arriving as the rental_date argument of calculate_late_fee.
The TEXT RENTAL_DATE column arrives as a string, which strptime parses to
a date (modelled as a day number); an INTEGER column value is not a
string, and datetime.now() minus an integer raises TypeError. -/
inductive RentalDateArg where
  | dateText (day : Int)
  | intColumn (value : Int)
  deriving DecidableEq, Repr

/-- BikeReturn.calculate_late_fee: when rental_date is a date string,
days_rented = (now - rental_date).days and
late_fee = max(0, (days_rented - allowed_days) * 10); when it is an
integer column value the date subtraction raises TypeError and the except
branch returns 0. -/
def calculateLateFee (now : Int) (rentalDate : RentalDateArg)
    (memberId : Int) : Int :=
  match rentalDate with
  | .dateText d =>
    let daysRented := now - d
    let allowedDays := calculateAllowedDays memberId
    max 0 ((daysRented - allowedDays) * 10)
  | .intColumn _ => 0

/-- BikeReturn.assess_damage: 0 when the bike is reported undamaged, else
the amount the clerk enters; the input loop there re-prompts until the
amount is non-negative, so damageAmount is the accepted value. -/
def assessDamage (damaged : Bool) (damageAmount : Int) : Int :=
  if damaged then damageAmount else 0

/-- BikeReturn.store_fees: INSERT OR REPLACE INTO rental_fees
(TRANSACTION_ID, LATE_FEE, DAMAGE_FEE) VALUES (?, ?, ?); REPLACE deletes
any row with the same primary key and inserts the new one. -/
def storeFees (s : DBState) (transactionId : Nat) (lateFee damageFee : Int) :
    DBState :=
  { s with
    fees := (s.fees.filter fun f => !(f.transactionId == transactionId)) ++
      [{ transactionId := transactionId, lateFee := lateFee,
         damageFee := damageFee }] }

/-- The bicycles table CHECK constraint on CONDITION from
database.py create_tables: CHECK(CONDITION IN ('New', 'Good', 'Damaged')).
Note that 'Fair' is not in the allowed set. -/
def conditionAllowed (c : String) : Bool :=
  c == "New" || c == "Good" || c == "Damaged"

/-- BikeReturn.update_bike_status: UPDATE bicycles SET STATUS = 'Available',
CONDITION = ? WHERE ID = ?.  SQLite raises an IntegrityError when a row is
updated to a CONDITION outside the CHECK set; with no matching row the
update is a no-op.  The interactive loop before the update only accepts
New/Good/Fair/Damaged; the accepted value is the newCondition argument.
availRow is the per-row effect of the SET clause. -/
def availRow (newCondition : String) (bicycleId : Int) (b : Bicycle) :
    Bicycle :=
  if b.id == bicycleId then
    { b with status := "Available", condition := newCondition }
  else b

/-- BikeReturn.update_bike_status, continued: the UPDATE statement itself,
with the CHECK constraint enforced on every row it touches. -/
def updateBikeStatus (s : DBState) (bicycleId : Int) (newCondition : String) :
    Except String DBState :=
  if s.bicycles.all (fun b => !(b.id == bicycleId)) then .ok s
  else if conditionAllowed newCondition then
    .ok { s with bicycles := s.bicycles.map (availRow newCondition bicycleId) }
  else .error "CHECK constraint failed: CONDITION"

/-- Write statements of return_bike at which the store may raise; the
surrounding try/except rolls the connection back in every case. -/
inductive WriteStep where
  | updateTxn
  | feeWrite
  | statusWrite
  deriving DecidableEq, Repr

/-- BikeReturn.return_bike after the two ids have passed validate_ids:
find the open transaction, require confirmation, close the transaction,
compute the fees, upsert the fee row, update the bicycle, then commit; any
exception rolls everything back and reports the error.  failAt injects a
storage failure at one of the three write statements.  The late fee is
computed from transaction[2], which by the schema's column order
(TRANSACTION_ID, BICYCLE_ID, MEMBER_ID, RENTAL_DATE, RETURN_DATE) is the
MEMBER_ID integer, not the RENTAL_DATE text the neighbouring comment
believes it to be. -/
def returnBike (failAt : Option WriteStep) (s : DBState) (now : Int)
    (bicycleId memberId : Int) (confirmed damaged : Bool)
    (damageAmount : Int) (newCondition : String) : (Bool × String) × DBState :=
  match getActiveRental s bicycleId memberId with
  | none =>
    ((false,
      s!"No active rental found for Bicycle ID {bicycleId} and Member ID {memberId}"),
      s)
  | some t =>
    if !confirmed then ((false, "Return canceled by user"), s)
    else if failAt == some .updateTxn then
      ((false, "Error during return: storage failure"), s)
    else
      let s1 := updateRentalTransaction s t.transactionId now
      let lateFee := calculateLateFee now (.intColumn t.memberId) memberId
      let damageFee := assessDamage damaged damageAmount
      if failAt == some .feeWrite then
        ((false, "Error during return: storage failure"), s)
      else
        let s2 := storeFees s1 t.transactionId lateFee damageFee
        if failAt == some .statusWrite then
          ((false, "Error during return: storage failure"), s)
        else
          match updateBikeStatus s2 bicycleId newCondition with
          | .error msg => ((false, "Error during return: " ++ msg), s)
          | .ok s3 => ((true, "Bicycle returned successfully"), s3)

/-- CLI entry of return_bike: validate_ids int-parses both ids and rejects
non-numeric input before anything else. -/
def returnBikeFromStrings (failAt : Option WriteStep) (s : DBState)
    (now : Int) (bicycleIdText memberIdText : String)
    (confirmed damaged : Bool) (damageAmount : Int) (newCondition : String) :
    (Bool × String) × DBState :=
  match parseIntText bicycleIdText, parseIntText memberIdText with
  | some bicycleId, some memberId =>
    returnBike failAt s now bicycleId memberId confirmed damaged
      damageAmount newCondition
  | _, _ => ((false, "Invalid bicycle ID or member ID"), s)

/-! Search (bikeSearch.py).  The ORDER BY clause of search_bicycles only
permutes the displayed rows and is elided; the model returns the row set
in table order. -/

/-- SQL LOWER(x) LIKE LOWER('%pat%'): case-insensitive substring test on
the patterns this system builds (plain words with no LIKE wildcards). -/
def likeMatch (field pat : String) : Bool :=
  occursIn ((toLowerStr pat).data) ((toLowerStr field).data)

/-- LOWER(STATUS) = LOWER(?). -/
def statusMatch (status : String) (b : Bicycle) : Bool :=
  toLowerStr b.status == toLowerStr status

/-- CAST(SUBSTR(RENTAL_RATE, 1, INSTR(RENTAL_RATE, '/') - 1) AS INTEGER):
the integer value of the text before the '/' of a rate such as 10/day;
a rate with no '/' or a non-numeric head casts to 0. -/
def rateValue (r : String) : Int :=
  if r.data.contains '/' then
    (digitsValue (r.data.takeWhile fun c => c != '/')).getD 0
  else 0

/-- The exact WHERE clause built by BicycleSearch.search_bicycles: the
status equality plus one AND-ed clause per supplied filter (a filter left
blank by the caller is none). -/
def exactPred (brand btype condition : Option String) (status : String)
    (minRate maxRate : Option Int) (b : Bicycle) : Bool :=
  statusMatch status b
  && (match brand with | some x => likeMatch b.brand x | none => true)
  && (match btype with | some x => likeMatch b.btype x | none => true)
  && (match condition with | some x => likeMatch b.condition x | none => true)
  && (match minRate with
      | some r => decide (r ≤ rateValue b.rentalRate) | none => true)
  && (match maxRate with
      | some r => decide (rateValue b.rentalRate ≤ r) | none => true)

/-- The relaxed WHERE clause built by
BicycleSearch.suggest_similar_bicycles: the clause text appends
" AND brand" then " OR type" then " OR condition", so under SQL precedence
a row matches when (status AND brand) OR type OR condition, each clause
present only when its filter was supplied.  The rate filters are dropped. -/
def relaxedPred (brand btype condition : Option String) (status : String)
    (b : Bicycle) : Bool :=
  (statusMatch status b
    && (match brand with | some x => likeMatch b.brand x | none => true))
  || (match btype with | some x => likeMatch b.btype x | none => false)
  || (match condition with | some x => likeMatch b.condition x | none => false)

/-- BicycleSearch.suggest_similar_bicycles: the rows of the relaxed query. -/
def suggestSimilarBicycles (s : DBState) (brand btype condition : Option String)
    (status : String) : List Bicycle :=
  s.bicycles.filter (relaxedPred brand btype condition status)

/-- BicycleSearch.search_bicycles: run the exact query; when it returns
rows display them, otherwise fall back to suggest_similar_bicycles.  The
value is the list of bicycles the search displays. -/
def searchBicycles (s : DBState) (brand btype : Option String)
    (status : String) (condition : Option String)
    (minRate maxRate : Option Int) : List Bicycle :=
  let results := s.bicycles.filter
    (exactPred brand btype condition status minRate maxRate)
  if results.isEmpty then
    suggestSimilarBicycles s brand btype condition status
  else results

/-! The rent/return state machine used for the reachability invariant. -/

/-- One caller-level operation on the store: a rent attempt or a return
attempt, with its interactive inputs and an optional injected storage
failure. -/
inductive Op where
  | rent (countFails insertFails : Bool) (now : Int) (memberId bicycleId : Int)
  | ret (failAt : Option WriteStep) (now : Int) (bicycleId memberId : Int)
      (confirmed damaged : Bool) (damageAmount : Int) (newCondition : String)
  deriving DecidableEq, Repr

/-- Effect of one operation on the persistent state. -/
def applyOp (s : DBState) : Op → DBState
  | .rent countFails insertFails now memberId bicycleId =>
    (rentBicycle countFails insertFails s now memberId bicycleId).2
  | .ret failAt now bicycleId memberId confirmed damaged damageAmount
      newCondition =>
    (returnBike failAt s now bicycleId memberId confirmed damaged
      damageAmount newCondition).2

/-- Effect of a sequence of operations. -/
def applyOps (s : DBState) (ops : List Op) : DBState :=
  ops.foldl applyOp s

/-- Transaction ids behave like an AUTOINCREMENT primary key: all distinct
and below the counter. -/
def txnIdsOk (s : DBState) : Prop :=
  (s.transactions.map fun t => t.transactionId).Nodup ∧
  ∀ t ∈ s.transactions, t.transactionId < s.nextTransactionId

/-- The bicycle-status invariant of the specification: a bicycle is Rented
exactly when exactly one open transaction references it (and never has
more than one open transaction). -/
def statusOpenInvariant (s : DBState) : Prop :=
  ∀ b ∈ s.bicycles,
    openCount s b.id ≤ 1 ∧ (b.status = "Rented" ↔ openCount s b.id = 1)

/-- A consistent store: well-formed transaction ids plus the
status/open-transaction invariant. -/
def consistentState (s : DBState) : Prop :=
  txnIdsOk s ∧ statusOpenInvariant s

instance (s : DBState) : Decidable (txnIdsOk s) := by
  unfold txnIdsOk; infer_instance

instance (s : DBState) : Decidable (statusOpenInvariant s) := by
  unfold statusOpenInvariant; infer_instance

instance (s : DBState) : Decidable (consistentState s) := by
  unfold consistentState; infer_instance

/-! Concrete states used to evaluate the operations. -/

/-- An Active member with the default rental limit 3 (sample row 1 of
populate_sample_data). -/
def memberOne : Member :=
  { id := 1, name := "John Smith", status := "Active", rentalLimit := 3 }

/-- An Available bicycle with id 5. -/
def bikeFive : Bicycle :=
  { id := 5, brand := "Trek", btype := "Road Bike", frameSize := "M",
    rentalRate := "10/day", purchaseDate := "2024-01-01",
    condition := "New", status := "Available" }

/-- A store holding one Active member and one Available bicycle, with no
transactions yet. -/
def baseState : DBState :=
  { bicycles := [bikeFive], members := [memberOne], transactions := [],
    fees := [], nextTransactionId := 1 }

/-- The same inventory with bicycle 5 Rented under one open transaction of
member 1, as a consistent mid-rental store. -/
def rentedState : DBState :=
  { bicycles := [{ bikeFive with status := "Rented" }],
    members := [memberOne],
    transactions := [{ transactionId := 1, bicycleId := 5, memberId := 1,
                       rentalDate := 0, returnDate := none }],
    fees := [], nextTransactionId := 2 }

/-- An Active member with limit 3 already holding five open rentals of
bicycles 11 through 15 (such rows exist in a store seeded outside the rent
path, whose inserts are born closed). -/
def overLimitState : DBState :=
  { bicycles := [], members := [memberOne],
    transactions :=
      [{ transactionId := 1, bicycleId := 11, memberId := 1,
         rentalDate := 0, returnDate := none },
       { transactionId := 2, bicycleId := 12, memberId := 1,
         rentalDate := 0, returnDate := none },
       { transactionId := 3, bicycleId := 13, memberId := 1,
         rentalDate := 0, returnDate := none },
       { transactionId := 4, bicycleId := 14, memberId := 1,
         rentalDate := 0, returnDate := none },
       { transactionId := 5, bicycleId := 15, memberId := 1,
         rentalDate := 0, returnDate := none }],
    fees := [], nextTransactionId := 6 }

/-- Member 1 at the rental limit: three open transactions already on file,
with bicycle 5 still Available for the fourth attempt. -/
def threeOpenState : DBState :=
  { bicycles := [bikeFive], members := [memberOne],
    transactions :=
      [{ transactionId := 1, bicycleId := 11, memberId := 1,
         rentalDate := 0, returnDate := none },
       { transactionId := 2, bicycleId := 12, memberId := 1,
         rentalDate := 0, returnDate := none },
       { transactionId := 3, bicycleId := 13, memberId := 1,
         rentalDate := 0, returnDate := none }],
    fees := [], nextTransactionId := 4 }

/-- A small inventory for the search theorems: no Available Giant mountain
bike exists, but a Rented mountain bike does. -/
def searchState : DBState :=
  { bicycles :=
      [{ id := 1, brand := "Trek", btype := "Road Bike", frameSize := "M",
         rentalRate := "12/day", purchaseDate := "2023-01-01",
         condition := "Good", status := "Available" },
       { id := 2, brand := "Giant", btype := "Mountain Bike",
         frameSize := "L", rentalRate := "15/day",
         purchaseDate := "2023-02-01", condition := "Good",
         status := "Rented" }],
    members := [], transactions := [], fees := [], nextTransactionId := 1 }

/-! Helper lemmas about the row-level store operations. -/

theorem closeRow_transactionId (tid : Nat) (d : Int) (t : RentalTransaction) :
    (closeRow tid d t).transactionId = t.transactionId := by
  unfold closeRow; split <;> rfl

theorem closeRow_bicycleId (tid : Nat) (d : Int) (t : RentalTransaction) :
    (closeRow tid d t).bicycleId = t.bicycleId := by
  unfold closeRow; split <;> rfl

theorem closeRow_memberId (tid : Nat) (d : Int) (t : RentalTransaction) :
    (closeRow tid d t).memberId = t.memberId := by
  unfold closeRow; split <;> rfl

theorem closeRow_of_ne (tid : Nat) (d : Int) (t : RentalTransaction)
    (h : t.transactionId ≠ tid) : closeRow tid d t = t := by
  unfold closeRow
  simp [h]

theorem map_closeRow_of_forall_ne (l : List RentalTransaction) (tid : Nat)
    (d : Int) (h : ∀ t ∈ l, t.transactionId ≠ tid) :
    l.map (closeRow tid d) = l := by
  induction l with
  | nil => rfl
  | cons a l ih =>
    rw [List.map_cons, closeRow_of_ne _ _ _ (h a (by simp)),
      ih fun t ht => h t (by simp [ht])]

theorem countP_two_mem (l : List RentalTransaction)
    (p : RentalTransaction → Bool) (t u : RentalTransaction) (ht : t ∈ l)
    (hu : u ∈ l) (hne : u ≠ t) (hpt : p t = true) (hpu : p u = true) :
    2 ≤ l.countP p := by
  rw [(List.perm_cons_erase ht).countP_eq p, List.countP_cons, hpt]
  have humem : u ∈ l.erase t := (List.mem_erase_of_ne hne).mpr hu
  have hpos : 0 < (l.erase t).countP p :=
    List.countP_pos_iff.mpr ⟨u, humem, hpu⟩
  have e1 : (if (true = true) then (1 : Nat) else 0) = 1 := rfl
  rw [e1]
  omega

theorem countP_map_closeRow (l : List RentalTransaction) (tid : Nat) (d : Int)
    (q : RentalTransaction → Bool)
    (hnd : (l.map fun x => x.transactionId).Nodup)
    (t : RentalTransaction) (ht : t ∈ l) (htid : t.transactionId = tid) :
    (l.map (closeRow tid d)).countP q + (if q t then 1 else 0) =
      l.countP q + (if q (closeRow tid d t) then 1 else 0) := by
  induction l with
  | nil => cases ht
  | cons a l ih =>
    rw [List.map_cons] at hnd
    have hnda := (List.nodup_cons.mp hnd).1
    have hndl := (List.nodup_cons.mp hnd).2
    rcases List.mem_cons.mp ht with rfl | hmem
    · have hnotin : ∀ x ∈ l, x.transactionId ≠ tid := by
        intro x hx hEq
        exact hnda (by rw [htid, ← hEq]; exact List.mem_map_of_mem _ hx)
      rw [List.map_cons, map_closeRow_of_forall_ne l tid d hnotin,
        List.countP_cons, List.countP_cons]
      ring
    · have hane : a.transactionId ≠ tid := by
        intro hEq
        exact hnda (by rw [hEq, ← htid]; exact List.mem_map_of_mem _ hmem)
      rw [List.map_cons, closeRow_of_ne _ _ _ hane, List.countP_cons,
        List.countP_cons]
      have hih := ih hndl hmem
      by_cases hqa : q a = true <;> by_cases hqt : q t = true <;>
        by_cases hqc : q (closeRow tid d t) = true <;>
        simp [hqa, hqt, hqc] at hih ⊢ <;> omega

theorem openCount_updateRentalTransaction (s : DBState)
    (t : RentalTransaction) (ht : t ∈ s.transactions)
    (hopen : t.returnDate = none)
    (hnd : (s.transactions.map fun x => x.transactionId).Nodup) (d x : Int) :
    openCount (updateRentalTransaction s t.transactionId d) x +
      (if t.bicycleId = x then 1 else 0) = openCount s x := by
  have key := countP_map_closeRow s.transactions t.transactionId d
    (fun u => u.bicycleId == x && u.returnDate.isNone) hnd t ht rfl
  have hclose : closeRow t.transactionId d t = { t with returnDate := some d } := by
    unfold closeRow; simp
  have h2 : ((fun u => u.bicycleId == x && u.returnDate.isNone)
      (closeRow t.transactionId d t)) = false := by
    rw [hclose]; simp
  rw [h2] at key
  have e1 : (if (true = true) then (1 : Nat) else 0) = 1 := rfl
  have e0 : (if (false = true) then (1 : Nat) else 0) = 0 := rfl
  rw [e0] at key
  unfold openCount updateRentalTransaction
  by_cases hbx : t.bicycleId = x
  · have h1 : ((fun u => u.bicycleId == x && u.returnDate.isNone) t) = true := by
      simp [hbx, hopen]
    rw [h1, e1] at key
    simp only [if_pos hbx]
    omega
  · have h1 : ((fun u => u.bicycleId == x && u.returnDate.isNone) t) = false := by
      simp [hbx]
    rw [h1, e0] at key
    simp only [if_neg hbx]
    omega

theorem storeFees_transactions (s : DBState) (tid : Nat) (lf df : Int) :
    (storeFees s tid lf df).transactions = s.transactions := rfl

theorem storeFees_bicycles (s : DBState) (tid : Nat) (lf df : Int) :
    (storeFees s tid lf df).bicycles = s.bicycles := rfl

theorem storeFees_nextTransactionId (s : DBState) (tid : Nat) (lf df : Int) :
    (storeFees s tid lf df).nextTransactionId = s.nextTransactionId := rfl

theorem updateRentalTransaction_bicycles (s : DBState) (tid : Nat) (d : Int) :
    (updateRentalTransaction s tid d).bicycles = s.bicycles := rfl

theorem updateRentalTransaction_nextTransactionId (s : DBState) (tid : Nat)
    (d : Int) :
    (updateRentalTransaction s tid d).nextTransactionId =
      s.nextTransactionId := rfl

theorem logRentalTransaction_bicycles (inf : Bool) (s : DBState)
    (b m rd erd : Int) :
    (logRentalTransaction inf s b m rd erd).bicycles = s.bicycles := by
  unfold logRentalTransaction; split <;> rfl

theorem getActiveRental_props (s : DBState) (b m : Int)
    (t : RentalTransaction) (h : getActiveRental s b m = some t) :
    t ∈ s.transactions ∧ t.bicycleId = b ∧ t.memberId = m ∧
      t.returnDate = none := by
  unfold getActiveRental at h
  have hmem := List.mem_of_find?_eq_some h
  have hp := List.find?_some h
  simp only [Bool.and_eq_true, beq_iff_eq, Option.isNone_iff_eq_none] at hp
  exact ⟨hmem, hp.1.1, hp.1.2, hp.2⟩

theorem updateBikeStatus_ok_cases (s : DBState) (bid : Int) (c : String)
    (s3 : DBState) (h : updateBikeStatus s bid c = .ok s3) :
    (s3 = s ∧ ∀ b ∈ s.bicycles, b.id ≠ bid) ∨
    s3 = { s with bicycles := s.bicycles.map (availRow c bid) } := by
  unfold updateBikeStatus at h
  split at h
  · rename_i hall
    left
    refine ⟨by cases h; rfl, ?_⟩
    intro b hb hEq
    have hba := List.all_eq_true.mp hall b hb
    simp [hEq] at hba
  · split at h
    · right; cases h; rfl
    · cases h

theorem updateBikeStatus_ok_fields (s : DBState) (bid : Int) (c : String)
    (s3 : DBState) (h : updateBikeStatus s bid c = .ok s3) :
    s3.transactions = s.transactions ∧ s3.fees = s.fees ∧
    s3.members = s.members ∧ s3.nextTransactionId = s.nextTransactionId := by
  rcases updateBikeStatus_ok_cases s bid c s3 h with ⟨rfl, -⟩ | rfl <;>
    exact ⟨rfl, rfl, rfl, rfl⟩

theorem map_transactionId_closeRow (l : List RentalTransaction) (tid : Nat)
    (d : Int) :
    ((l.map (closeRow tid d)).map fun t => t.transactionId) =
      l.map fun t => t.transactionId := by
  rw [List.map_map]
  exact List.map_congr_left fun a _ => closeRow_transactionId tid d a

theorem openCount_logRentalTransaction (inf : Bool) (s : DBState)
    (b m rd erd : Int) (x : Int) :
    openCount (logRentalTransaction inf s b m rd erd) x = openCount s x := by
  unfold logRentalTransaction openCount
  split
  · rfl
  · simp [List.countP_append]

theorem rentBicycle_master (cf inf : Bool) (s : DBState) (now m b : Int) :
    ((rentBicycle cf inf s now m b).1.1 = false ∧
      (rentBicycle cf inf s now m b).2 = s ∧
      ((validateMember cf s m).1 = false ∨ (validateBicycle s b).1 = false)) ∨
    ((rentBicycle cf inf s now m b).1.1 = true ∧
      (validateMember cf s m).1 = true ∧ (validateBicycle s b).1 = true ∧
      (rentBicycle cf inf s now m b).2 =
        logRentalTransaction inf s b m now (calculateExpectedReturnDate now)) := by
  simp only [rentBicycle]
  rcases hvm : validateMember cf s m with ⟨bm, msgm⟩
  cases bm
  · left; exact ⟨rfl, rfl, Or.inl rfl⟩
  · rcases hvb : validateBicycle s b with ⟨bb, msgb⟩
    cases bb
    · left; exact ⟨rfl, rfl, Or.inr rfl⟩
    · right; exact ⟨rfl, rfl, rfl, rfl⟩

theorem returnBike_master (fa : Option WriteStep) (s : DBState) (now b m : Int)
    (conf dmg : Bool) (amt : Int) (cond : String) :
    ((returnBike fa s now b m conf dmg amt cond).1.1 = false ∧
      (returnBike fa s now b m conf dmg amt cond).2 = s) ∨
    ((returnBike fa s now b m conf dmg amt cond).1.1 = true ∧ fa = none ∧
      conf = true ∧
      ∃ t s3, getActiveRental s b m = some t ∧
        updateBikeStatus
          (storeFees (updateRentalTransaction s t.transactionId now)
            t.transactionId (calculateLateFee now (.intColumn t.memberId) m)
            (assessDamage dmg amt)) b cond = .ok s3 ∧
        (returnBike fa s now b m conf dmg amt cond).2 = s3) := by
  cases hga : getActiveRental s b m with
  | none => left; constructor <;> simp [returnBike, hga]
  | some t =>
    cases conf with
    | false => left; constructor <;> simp [returnBike, hga]
    | true =>
      cases fa with
      | some step =>
        cases step <;> (left; constructor <;> simp [returnBike, hga])
      | none =>
        cases hub : updateBikeStatus
            (storeFees (updateRentalTransaction s t.transactionId now)
              t.transactionId (calculateLateFee now (.intColumn t.memberId) m)
              (assessDamage dmg amt)) b cond with
        | error e => left; constructor <;> simp [returnBike, hga, hub]
        | ok s3 =>
          right
          refine ⟨?_, rfl, rfl, t, s3, rfl, hub, ?_⟩ <;>
            simp [returnBike, hga, hub]

theorem txnIdsOk_logRentalTransaction (inf : Bool) (s : DBState)
    (b m rd erd : Int) (h : txnIdsOk s) :
    txnIdsOk (logRentalTransaction inf s b m rd erd) := by
  obtain ⟨hnd, hbound⟩ := h
  unfold logRentalTransaction
  split
  · exact ⟨hnd, hbound⟩
  · constructor
    · rw [List.map_append, List.nodup_append]
      refine ⟨hnd, by simp, ?_⟩
      intro a ha hb
      have hb' : a = s.nextTransactionId := by simpa using hb
      obtain ⟨t0, ht0, hta⟩ := List.mem_map.mp ha
      have hlt := hbound t0 ht0
      omega
    · intro u hu
      rw [List.mem_append] at hu
      rcases hu with hu | hu
      · exact Nat.lt_succ_of_lt (hbound u hu)
      · have hu' : u.transactionId = s.nextTransactionId := by
          simp at hu; rw [hu]
        simp [hu']

theorem statusOpen_logRentalTransaction (inf : Bool) (s : DBState)
    (b m rd erd : Int) (h : statusOpenInvariant s) :
    statusOpenInvariant (logRentalTransaction inf s b m rd erd) := by
  intro bb hbb
  rw [logRentalTransaction_bicycles] at hbb
  rw [openCount_logRentalTransaction]
  exact h bb hbb

theorem rentBicycle_preserves_consistent (cf inf : Bool) (s : DBState)
    (now m b : Int) (h : consistentState s) :
    consistentState (rentBicycle cf inf s now m b).2 := by
  rcases rentBicycle_master cf inf s now m b with ⟨-, hstate, -⟩ | ⟨-, -, -, hstate⟩
  · rw [hstate]; exact h
  · rw [hstate]
    exact ⟨txnIdsOk_logRentalTransaction _ _ _ _ _ _ h.1,
      statusOpen_logRentalTransaction _ _ _ _ _ _ h.2⟩

theorem returnBike_preserves_consistent (fa : Option WriteStep) (s : DBState)
    (now b m : Int) (conf dmg : Bool) (amt : Int) (cond : String)
    (h : consistentState s) :
    consistentState (returnBike fa s now b m conf dmg amt cond).2 := by
  rcases returnBike_master fa s now b m conf dmg amt cond with
    ⟨-, hstate⟩ | ⟨-, -, -, t, s3, hga, hub, hstate⟩
  · rw [hstate]; exact h
  · rw [hstate]
    obtain ⟨⟨hnd, hbound⟩, hinv⟩ := h
    obtain ⟨htm, hbid, hmid, hopen⟩ := getActiveRental_props s b m t hga
    obtain ⟨hs3tx, hs3fees, hs3mem, hs3next⟩ :=
      updateBikeStatus_ok_fields _ _ _ _ hub
    have hs3tx' : s3.transactions =
        s.transactions.map (closeRow t.transactionId now) := by
      rw [hs3tx, storeFees_transactions]; rfl
    have hs3next' : s3.nextTransactionId = s.nextTransactionId := by
      rw [hs3next, storeFees_nextTransactionId]; rfl
    have hoc : ∀ x, openCount s3 x +
        (if t.bicycleId = x then 1 else 0) = openCount s x := by
      intro x
      have hx := openCount_updateRentalTransaction s t htm hopen hnd now x
      have hsame : openCount s3 x =
          openCount (updateRentalTransaction s t.transactionId now) x := by
        unfold openCount
        rw [hs3tx']
        rfl
      rw [hsame]
      exact hx
    constructor
    · constructor
      · rw [hs3tx', map_transactionId_closeRow]; exact hnd
      · intro u hu
        rw [hs3tx'] at hu
        obtain ⟨t0, ht0, rfl⟩ := List.mem_map.mp hu
        rw [hs3next', closeRow_transactionId]
        exact hbound t0 ht0
    · intro bb hbb
      rcases updateBikeStatus_ok_cases _ _ _ _ hub with ⟨heq3, hnob⟩ | heq3
      · have hsb : s3.bicycles = s.bicycles := by
          rw [heq3, storeFees_bicycles, updateRentalTransaction_bicycles]
        rw [hsb] at hbb
        have hbbne : bb.id ≠ b := hnob bb
          (by rw [storeFees_bicycles, updateRentalTransaction_bicycles]
              exact hbb)
        have hne : ¬(t.bicycleId = bb.id) := by
          rw [hbid]; exact fun hx => hbbne hx.symm
        have hocbb : openCount s3 bb.id = openCount s bb.id := by
          have hz := hoc bb.id
          rw [if_neg hne] at hz
          omega
        rw [hocbb]
        exact hinv bb hbb
      · have hbb' : bb ∈ s.bicycles.map (availRow cond b) := by
          rw [heq3] at hbb
          simpa [storeFees_bicycles, updateRentalTransaction_bicycles]
            using hbb
        obtain ⟨b0, hb0, rfl⟩ := List.mem_map.mp hbb'
        have hb0inv := hinv b0 hb0
        by_cases hb0id : b0.id = b
        · have havail : availRow cond b b0 =
              { b0 with status := "Available", condition := cond } := by
            unfold availRow; simp [hb0id]
          rw [havail]
          have hocb : openCount s3 b + 1 = openCount s b := by
            have hz := hoc b
            rw [if_pos hbid] at hz
            omega
          have hle : openCount s b ≤ 1 := by
            have := hb0inv.1
            rw [hb0id] at this
            exact this
          have h0 : openCount s3 b = 0 := by omega
          show openCount s3 b0.id ≤ 1 ∧
            ("Available" = "Rented" ↔ openCount s3 b0.id = 1)
          rw [hb0id, h0]
          refine ⟨by omega, by decide, ?_⟩ <;> simp
        · have havail : availRow cond b b0 = b0 := by
            unfold availRow; simp [hb0id]
          rw [havail]
          have hne : ¬(t.bicycleId = b0.id) := by
            rw [hbid]; exact fun hx => hb0id hx.symm
          have hocbb : openCount s3 b0.id = openCount s b0.id := by
            have hz := hoc b0.id
            rw [if_neg hne] at hz
            omega
          rw [hocbb]
          exact hb0inv

theorem applyOps_preserves_consistent (ops : List Op) :
    ∀ s, consistentState s → consistentState (applyOps s ops) := by
  induction ops with
  | nil => exact fun s h => h
  | cons op ops ih =>
    intro s h
    have hstep : consistentState (applyOp s op) := by
      cases op with
      | rent cf inf now m b =>
        exact rentBicycle_preserves_consistent cf inf s now m b h
      | ret fa now b m conf dmg amt cond =>
        exact returnBike_preserves_consistent fa s now b m conf dmg amt
          cond h
    exact ih (applyOp s op) hstep

/-- C1: the claim reads that a validated rent inserts one transaction with
return_date = null and flips the bicycle to Rented.  The code inserts
exactly one row with rental_date = now, but binds expected_return_date
(now + 7) to the RETURN_DATE column, and never updates the bicycle row:
after the rent the store holds no open transaction and bicycle 5 is still
Available. -/
theorem claim_C1_rent_inserts_closed_row_and_never_flips_status :
    (rentBicycle false false baseState 0 1 5).1.1 = true ∧
    (rentBicycle false false baseState 0 1 5).2.transactions =
      [{ transactionId := 1, bicycleId := 5, memberId := 1, rentalDate := 0,
         returnDate := some 7 }] ∧
    openCount (rentBicycle false false baseState 0 1 5).2 5 = 0 ∧
    getBicycleById (rentBicycle false false baseState 0 1 5).2 5 =
      some bikeFive ∧
    bikeFive.status = "Available" := by
  decide

/-- C3: the claim reads that every return charges
max(0, (days_rented - 7) * 10), with 30 for a 10-day rental.
calculate_late_fee does implement that formula for a rental-date string
(first three conjuncts), but return_bike passes transaction[2] - by the
schema's column order the MEMBER_ID integer, not the RENTAL_DATE text -
so the date subtraction raises TypeError, the except branch returns 0,
and a confirmed return 10 days after rental stores a fee row with
late_fee = 0 instead of 30 (last two conjuncts). -/
theorem claim_C3_late_fee_formula_never_reaches_returns :
    (∀ now d memberId : Int,
      calculateLateFee now (.dateText d) memberId =
        max 0 ((now - d - 7) * 10)) ∧
    calculateLateFee 10 (.dateText 0) 1 = 30 ∧
    calculateLateFee 5 (.dateText 0) 1 = 0 ∧
    (returnBike none rentedState 10 5 1 true false 0 "Good").1.1 = true ∧
    (returnBike none rentedState 10 5 1 true false 0 "Good").2.fees =
      [{ transactionId := 1, lateFee := 0, damageFee := 0 }] := by
  exact ⟨fun now d memberId => rfl, by decide, by decide, by decide,
    by decide⟩

/-- C10: when the open-rental count query fails,
get_active_rentals_for_member returns 0 instead of propagating the error,
so validate_member sees zero open rentals and declares any Active member
with a positive limit eligible, whatever the member really holds. -/
theorem claim_C10_failed_count_defaults_to_zero_and_eligible (s : DBState)
    (memberId : Int) (m : Member) (hm : getMemberInfo s memberId = some m)
    (hlim : 0 < m.rentalLimit) :
    getActiveRentalsForMember true s memberId = 0 ∧
    (validateMember true s memberId).1 = true := by
  refine ⟨rfl, ?_⟩
  unfold validateMember
  rw [hm]
  simp [getActiveRentalsForMember, Nat.not_le.mpr hlim]

theorem rentBicycle_fail_state (cf inf : Bool) (s : DBState) (now m b : Int)
    (h : (rentBicycle cf inf s now m b).1.1 = false) :
    (rentBicycle cf inf s now m b).2 = s := by
  rcases rentBicycle_master cf inf s now m b with ⟨-, hstate, -⟩ | ⟨ht, -, -, -⟩
  · exact hstate
  · rw [ht] at h; cases h

theorem returnBike_fail_state (fa : Option WriteStep) (s : DBState)
    (now b m : Int) (conf dmg : Bool) (amt : Int) (cond : String)
    (h : (returnBike fa s now b m conf dmg amt cond).1.1 = false) :
    (returnBike fa s now b m conf dmg amt cond).2 = s := by
  rcases returnBike_master fa s now b m conf dmg amt cond with
    ⟨-, hstate⟩ | ⟨ht, -, -, -⟩
  · exact hstate
  · rw [ht] at h; cases h

theorem returnBike_success_no_open (s : DBState) (now b m : Int)
    (dmg : Bool) (amt : Int) (cond : String)
    (hone : openCountFor s b m ≤ 1)
    (hsucc : (returnBike none s now b m true dmg amt cond).1.1 = true) :
    getActiveRental (returnBike none s now b m true dmg amt cond).2 b m =
      none := by
  rcases returnBike_master none s now b m true dmg amt cond with
    ⟨hf, -⟩ | ⟨-, -, -, t, s3, hga, hub, hstate⟩
  · rw [hf] at hsucc; cases hsucc
  · rw [hstate]
    obtain ⟨htm, hbid, hmid, hopen⟩ := getActiveRental_props s b m t hga
    obtain ⟨hs3tx, -, -, -⟩ := updateBikeStatus_ok_fields _ _ _ _ hub
    have hs3tx' : s3.transactions =
        s.transactions.map (closeRow t.transactionId now) := by
      rw [hs3tx, storeFees_transactions]; rfl
    unfold getActiveRental
    rw [hs3tx', List.find?_eq_none]
    intro u hu hpu
    obtain ⟨t0, ht0, rfl⟩ := List.mem_map.mp hu
    by_cases hti : t0.transactionId = t.transactionId
    · have hcr : closeRow t.transactionId now t0 =
          { t0 with returnDate := some now } := by
        unfold closeRow; simp [hti]
      rw [hcr] at hpu
      simp at hpu
    · have hcr : closeRow t.transactionId now t0 = t0 :=
        closeRow_of_ne _ _ _ hti
      rw [hcr] at hpu
      have hne : t0 ≠ t := fun hEq => hti (by rw [hEq])
      have h2 : 2 ≤ s.transactions.countP
          (fun u => u.bicycleId == b && u.memberId == m &&
            u.returnDate.isNone) := by
        refine countP_two_mem s.transactions _ t t0 htm ht0 hne ?_ hpu
        simp [hbid, hmid, hopen]
      unfold openCountFor at hone
      omega

/-- C2: from any consistent store, every store reachable by rent and
return operations keeps the invariant that a bicycle is Rented exactly
when exactly one open transaction names it.  (The rent path preserves it
vacuously: its inserts are born closed and it never sets a status.) -/
theorem claim_C2_status_rented_iff_one_open (s : DBState)
    (h : consistentState s) (ops : List Op) :
    ∀ b ∈ (applyOps s ops).bicycles,
      b.status = "Rented" ↔ openCount (applyOps s ops) b.id = 1 :=
  fun b hb => ((applyOps_preserves_consistent ops s h).2 b hb).2

/-- Witness for C2 at a concrete consistent store and a concrete
return-then-rent history. -/
theorem claim_C2_witness :
    consistentState rentedState ∧
    ∀ b ∈ (applyOps rentedState
        [Op.ret none 10 5 1 true false 0 "Good",
         Op.rent false false 11 1 5]).bicycles,
      b.status = "Rented" ↔
        openCount (applyOps rentedState
          [Op.ret none 10 5 1 true false 0 "Good",
           Op.rent false false 11 1 5]) b.id = 1 :=
  ⟨by decide,
    claim_C2_status_rented_iff_one_open rentedState (by decide) _⟩

/-- C4: validate_member fails exactly when the member row is missing or
not Active (reason: the invalid-membership string) or when the open-rental
count has reached the rental limit (reason naming the limit and count). -/
theorem claim_C4_eligibility_characterization (s : DBState) (memberId : Int) :
    ((validateMember false s memberId).1 = false ↔
      (getMemberInfo s memberId = none ∨
        ∃ m, getMemberInfo s memberId = some m ∧
          m.rentalLimit ≤ getActiveRentalsForMember false s memberId)) ∧
    (getMemberInfo s memberId = none ↔
      ∀ m ∈ s.members, ¬(m.id = memberId ∧ m.status = "Active")) ∧
    (getMemberInfo s memberId = none →
      (validateMember false s memberId).2 =
        "Invalid or inactive membership.") ∧
    (∀ m, getMemberInfo s memberId = some m →
      m.rentalLimit ≤ getActiveRentalsForMember false s memberId →
      (validateMember false s memberId).2 =
        (let rentalLimit := m.rentalLimit
         let currentRentals := getActiveRentalsForMember false s memberId
         s!"Rental limit exceeded. Limit: {rentalLimit}, Current rentals: {currentRentals}.")) := by
  refine ⟨?_, ?_, ?_, ?_⟩
  · cases hm : getMemberInfo s memberId with
    | none => simp [validateMember, hm]
    | some m =>
      simp only [validateMember, hm]
      by_cases hle : m.rentalLimit ≤ getActiveRentalsForMember false s memberId
      · rw [if_pos hle]
        constructor
        · intro _; exact Or.inr ⟨m, rfl, hle⟩
        · intro _; rfl
      · rw [if_neg hle]
        constructor
        · intro hcontra; cases hcontra
        · intro hor
          rcases hor with hnone | ⟨m2, hm2, hle2⟩
          · exact absurd hnone (by simp)
          · have : m2 = m := by injection hm2.symm
            rw [this] at hle2
            exact absurd hle2 hle
  · simp [getMemberInfo, List.find?_eq_none, not_and]
  · intro hm
    simp [validateMember, hm]
  · intro m hm hle
    simp [validateMember, hm, hle]

/-- Witness for C4: a member with rental limit 3 and three open
transactions fails validation and is rejected on the fourth rent. -/
theorem claim_C4_witness :
    (validateMember false threeOpenState 1).1 = false ∧
    (rentBicycle false false threeOpenState 0 1 5).1.1 = false :=
  ⟨(claim_C4_eligibility_characterization threeOpenState 1).1.mpr
      (Or.inr ⟨memberOne, by decide, by decide⟩),
    by decide⟩

/-- C5: once a return of (bicycle, member) has committed, a second
return_bike call for the same pair finds no open transaction, is rejected,
and leaves the store exactly as the first return left it, so the recorded
return date and the fee row are untouched. -/
theorem claim_C5_second_return_rejected_unchanged (s : DBState)
    (now now2 b m : Int) (dmg : Bool) (amt : Int) (cond : String)
    (conf2 dmg2 : Bool) (amt2 : Int) (cond2 : String)
    (hone : openCountFor s b m ≤ 1)
    (hsucc : (returnBike none s now b m true dmg amt cond).1.1 = true) :
    (returnBike none (returnBike none s now b m true dmg amt cond).2 now2
      b m conf2 dmg2 amt2 cond2).1.1 = false ∧
    (returnBike none (returnBike none s now b m true dmg amt cond).2 now2
      b m conf2 dmg2 amt2 cond2).2 =
      (returnBike none s now b m true dmg amt cond).2 := by
  have hnone := returnBike_success_no_open s now b m dmg amt cond hone hsucc
  set s1 := (returnBike none s now b m true dmg amt cond).2 with hs1
  constructor <;> simp [returnBike, hnone]

/-- Witness for C5 on the concrete mid-rental store. -/
theorem claim_C5_witness :
    (returnBike none (returnBike none rentedState 10 5 1 true false 0
      "Good").2 11 5 1 true false 0 "Good").1.1 = false ∧
    (returnBike none (returnBike none rentedState 10 5 1 true false 0
      "Good").2 11 5 1 true false 0 "Good").2 =
      (returnBike none rentedState 10 5 1 true false 0 "Good").2 :=
  claim_C5_second_return_rejected_unchanged rentedState 10 11 5 1 false 0
    "Good" true false 0 "Good" (by decide) (by decide)

/-- C6: the claim reads that a rent followed immediately by a confirmed
return with condition Good succeeds and leaves one fee row, and that every
condition in New/Good/Fair/Damaged can be stored.  In the code the rent
writes the expected return date into RETURN_DATE, so the immediate return
finds no active rental, is rejected, and writes no fee row; and a genuine
return with condition Fair violates the bicycles CHECK constraint, whose
allowed set omits Fair, so the whole return rolls back. -/
theorem claim_C6_round_trip_rejected_and_fair_violates_check :
    (rentBicycle false false baseState 0 1 5).1.1 = true ∧
    (returnBike none (rentBicycle false false baseState 0 1 5).2 0 5 1 true
      false 0 "Good").1.1 = false ∧
    (returnBike none (rentBicycle false false baseState 0 1 5).2 0 5 1 true
      false 0 "Good").1.2 =
      "No active rental found for Bicycle ID 5 and Member ID 1" ∧
    (returnBike none (rentBicycle false false baseState 0 1 5).2 0 5 1 true
      false 0 "Good").2.fees = [] ∧
    (returnBike none rentedState 10 5 1 true false 0 "Fair").1.1 = false ∧
    (returnBike none rentedState 10 5 1 true false 0 "Fair").2 =
      rentedState := by
  decide

/-- C7: every rejection of a rent or a return (non-numeric input, unknown
or unavailable bicycle, ineligible member, no active rental, unconfirmed
return) leaves the store unchanged; in particular an unknown bicycle id in
a rent leaves every member's open-rental count unchanged. -/
theorem claim_C7_rejections_leave_state_unchanged :
    (∀ cf inf s now mt bt,
      (rentBicycleFromStrings cf inf s now mt bt).1.1 = false →
      (rentBicycleFromStrings cf inf s now mt bt).2 = s) ∧
    (∀ fa s now bt mt conf dmg amt cond,
      (returnBikeFromStrings fa s now bt mt conf dmg amt cond).1.1 = false →
      (returnBikeFromStrings fa s now bt mt conf dmg amt cond).2 = s) ∧
    (∀ cf inf s now m b, getBicycleById s b = none →
      (rentBicycle cf inf s now m b).1.1 = false ∧
      (rentBicycle cf inf s now m b).2 = s ∧
      ∀ qf m2,
        getActiveRentalsForMember qf (rentBicycle cf inf s now m b).2 m2 =
          getActiveRentalsForMember qf s m2) := by
  refine ⟨?_, ?_, ?_⟩
  · intro cf inf s now mt bt h
    cases hm : parseIntText mt with
    | none => simp [rentBicycleFromStrings, hm]
    | some mv =>
      cases hb : parseIntText bt with
      | none => simp [rentBicycleFromStrings, hm, hb]
      | some bv =>
        simp only [rentBicycleFromStrings, hm, hb] at h ⊢
        exact rentBicycle_fail_state _ _ _ _ _ _ h
  · intro fa s now bt mt conf dmg amt cond h
    cases hb : parseIntText bt with
    | none => simp [returnBikeFromStrings, hb]
    | some bv =>
      cases hm : parseIntText mt with
      | none => simp [returnBikeFromStrings, hb, hm]
      | some mv =>
        simp only [returnBikeFromStrings, hb, hm] at h ⊢
        exact returnBike_fail_state _ _ _ _ _ _ _ _ _ h
  · intro cf inf s now m b hnb
    have hvb : (validateBicycle s b).1 = false := by
      unfold validateBicycle
      rw [hnb]
    have hfst : (rentBicycle cf inf s now m b).1.1 = false := by
      rcases rentBicycle_master cf inf s now m b with
        ⟨hf, -, -⟩ | ⟨-, -, hvb2, -⟩
      · exact hf
      · rw [hvb] at hvb2; cases hvb2
    have hstate := rentBicycle_fail_state _ _ _ _ _ _ hfst
    exact ⟨hfst, hstate, fun qf m2 => by rw [hstate]⟩

/-- Witness for C7: a non-numeric member id, a non-numeric member id on
return, and an unknown bicycle id all leave the concrete store unchanged. -/
theorem claim_C7_witness :
    (rentBicycleFromStrings false false baseState 0 "x" "5").2 =
      baseState ∧
    (returnBikeFromStrings none baseState 0 "5" "y" true false 0
      "Good").2 = baseState ∧
    (rentBicycle false false baseState 0 1 99).1.1 = false ∧
    (rentBicycle false false baseState 0 1 99).2 = baseState :=
  ⟨claim_C7_rejections_leave_state_unchanged.1 false false baseState 0 "x"
      "5" (by decide),
    claim_C7_rejections_leave_state_unchanged.2.1 none baseState 0 "5" "y"
      true false 0 "Good" (by decide),
    (claim_C7_rejections_leave_state_unchanged.2.2 false false baseState 0
      1 99 (by decide)).1,
    (claim_C7_rejections_leave_state_unchanged.2.2 false false baseState 0
      1 99 (by decide)).2.1⟩

/-- Counterexample to C8 as stated: when the transaction insert fails
during a validated rent, log_rental_transaction swallows the exception, no
row is persisted, and rent_bicycle still reports the rental as confirmed
instead of surfacing a failure. -/
theorem claim_C8_counterexample_rent_swallows_failure :
    (rentBicycle false true baseState 0 1 5).1.1 = true ∧
    (rentBicycle false true baseState 0 1 5).2 = baseState := by
  decide

/-- C8 amended: a storage failure at any write of a return rolls the whole
operation back (final state = initial state) and is surfaced as a failure
result; a failed insert during a rent also persists nothing, but is
swallowed, so a rent whose validations passed still reports success. -/
theorem claim_C8_return_rolls_back_but_rent_swallows :
    (∀ step s now b m conf dmg amt cond,
      (returnBike (some step) s now b m conf dmg amt cond).1.1 = false ∧
      (returnBike (some step) s now b m conf dmg amt cond).2 = s) ∧
    (∀ cf s now m b,
      (rentBicycle cf true s now m b).2 = s ∧
      ((validateMember cf s m).1 = true → (validateBicycle s b).1 = true →
        (rentBicycle cf true s now m b).1.1 = true)) := by
  constructor
  · intro step s now b m conf dmg amt cond
    rcases returnBike_master (some step) s now b m conf dmg amt cond with
      ⟨hf, hstate⟩ | ⟨-, hfa, -, -⟩
    · exact ⟨hf, hstate⟩
    · cases hfa
  · intro cf s now m b
    constructor
    · rcases rentBicycle_master cf true s now m b with
        ⟨-, hstate, -⟩ | ⟨-, -, -, hstate⟩
      · exact hstate
      · rw [hstate]; rfl
    · intro hm hb2
      rcases rentBicycle_master cf true s now m b with
        ⟨-, -, hor⟩ | ⟨hT, -, -, -⟩
      · rcases hor with hcontra | hcontra
        · rw [hm] at hcontra; cases hcontra
        · rw [hb2] at hcontra; cases hcontra
      · exact hT

/-- Witness for C8: a fee-write failure on the concrete mid-rental store
rolls back and reports failure, while a rent whose insert fails still
reports success. -/
theorem claim_C8_witness :
    (returnBike (some WriteStep.feeWrite) rentedState 10 5 1 true false 0
      "Good").1.1 = false ∧
    (returnBike (some WriteStep.feeWrite) rentedState 10 5 1 true false 0
      "Good").2 = rentedState ∧
    (rentBicycle false true baseState 3 1 5).1.1 = true :=
  ⟨(claim_C8_return_rolls_back_but_rent_swallows.1 WriteStep.feeWrite
      rentedState 10 5 1 true false 0 "Good").1,
    (claim_C8_return_rolls_back_but_rent_swallows.1 WriteStep.feeWrite
      rentedState 10 5 1 true false 0 "Good").2,
    (claim_C8_return_rolls_back_but_rent_swallows.2 false baseState 3 1
      5).2 (by decide) (by decide)⟩

/-- C9: when the exact search query returns no rows and some bicycle
satisfies the relaxed OR-combined predicate, the search returns exactly
the relaxed-query rows, which are non-empty and include every bicycle the
relaxed predicate accepts. -/
theorem claim_C9_search_fallback (s : DBState)
    (brand btype condition : Option String) (status : String)
    (minRate maxRate : Option Int)
    (hempty : s.bicycles.filter
      (exactPred brand btype condition status minRate maxRate) = [])
    (hsome : ∃ bk ∈ s.bicycles,
      relaxedPred brand btype condition status bk = true) :
    searchBicycles s brand btype status condition minRate maxRate =
      suggestSimilarBicycles s brand btype condition status ∧
    searchBicycles s brand btype status condition minRate maxRate ≠ [] ∧
    ∀ bk ∈ s.bicycles, relaxedPred brand btype condition status bk = true →
      bk ∈ searchBicycles s brand btype status condition minRate maxRate := by
  have hfb : searchBicycles s brand btype status condition minRate maxRate =
      suggestSimilarBicycles s brand btype condition status := by
    simp [searchBicycles, hempty]
  refine ⟨hfb, ?_, ?_⟩
  · rw [hfb]
    obtain ⟨bk, hbk, hrel⟩ := hsome
    unfold suggestSimilarBicycles
    intro hnil
    have hmem : bk ∈ s.bicycles.filter
        (relaxedPred brand btype condition status) :=
      List.mem_filter.mpr ⟨hbk, hrel⟩
    rw [hnil] at hmem
    cases hmem
  · intro bk hbk hrel
    rw [hfb]
    exact List.mem_filter.mpr ⟨hbk, hrel⟩

/-- Witness for C9: searching Available Giant mountain bikes over the
concrete inventory matches nothing exactly, and the fallback returns the
Rented mountain bike via the OR-relaxed predicate. -/
theorem claim_C9_witness :
    searchBicycles searchState (some "giant") (some "mountain")
      "available" none none none =
      suggestSimilarBicycles searchState (some "giant") (some "mountain")
        none "available" ∧
    searchBicycles searchState (some "giant") (some "mountain")
      "available" none none none ≠ [] :=
  ⟨(claim_C9_search_fallback searchState (some "giant") (some "mountain")
      none "available" none none (by decide)
      ⟨{ id := 2, brand := "Giant", btype := "Mountain Bike",
         frameSize := "L", rentalRate := "15/day",
         purchaseDate := "2023-02-01", condition := "Good",
         status := "Rented" }, by decide, by decide⟩).1,
    (claim_C9_search_fallback searchState (some "giant") (some "mountain")
      none "available" none none (by decide)
      ⟨{ id := 2, brand := "Giant", btype := "Mountain Bike",
         frameSize := "L", rentalRate := "15/day",
         purchaseDate := "2023-02-01", condition := "Good",
         status := "Rented" }, by decide, by decide⟩).2.1⟩

/-- Witness for C10: a member with limit 3 really holding five open
rentals is still declared eligible when the count query fails. -/
theorem claim_C10_witness :
    getActiveRentalsForMember false overLimitState 1 = 5 ∧
    (validateMember true overLimitState 1).1 = true :=
  ⟨by decide,
    (claim_C10_failed_count_defaults_to_zero_and_eligible overLimitState 1
      memberOne (by decide) (by decide)).2⟩

end BicycleRental
